import Mathlib

/-!
Verification development for the forte repository material: the NER/SRL YAML
configuration document, the data-augmentation tutorial notebook, and the
shell command sequence that prepares data and runs the model. Each artifact
is embedded as Lean data together with the query functions the properties
need, and the properties are settled as theorems below.
-/

/-- A YAML (or Python-dict) value: integer, float, boolean or string scalars,
or a mapping from string keys to values. YAML 1.1 parses the bare scalar
yes as the boolean true and 0.3 as a float (embedded here as the exact
rational the literal denotes). -/
inductive Yaml where
  | int (n : Int)
  | float (q : Rat)
  | bool (b : Bool)
  | str (s : String)
  | map (entries : List (String × Yaml))

/-- Look up a key among the entries of a mapping. -/
def Yaml.lookupKey : List (String × Yaml) → String → Option Yaml
  | [], _ => none
  | (k, v) :: rest, key => if k == key then some v else lookupKey rest key

/-- Follow a path of keys down the tree. -/
def Yaml.getPath : Yaml → List String → Option Yaml
  | v, [] => some v
  | .map es, k :: ks =>
      match Yaml.lookupKey es k with
      | some v => v.getPath ks
      | none => none
  | _, _ :: _ => none

/-- Does the predicate hold of every leaf (non-mapping node) of the tree? -/
def Yaml.allLeaves (p : Yaml → Bool) : Yaml → Bool
  | .map es => go es
  | v => p v
where go : List (String × Yaml) → Bool
  | [] => true
  | (_, v) :: rest => v.allLeaves p && go rest

/-- The leaves of the tree that satisfy the predicate, in document order. -/
def Yaml.leavesWhere (p : Yaml → Bool) : Yaml → List Yaml
  | .map es => go es
  | v => if p v then [v] else []
where go : List (String × Yaml) → List Yaml
  | [] => []
  | (_, v) :: rest => v.leavesWhere p ++ go rest

/-- Does the key occur as a mapping key anywhere in the tree? -/
def Yaml.hasKey (key : String) : Yaml → Bool
  | .map es => go es
  | _ => false
where go : List (String × Yaml) → Bool
  | [] => false
  | (k, v) :: rest => k == key || v.hasKey key || go rest

/-- The top-level keys of a mapping, in order. -/
def Yaml.topKeys : Yaml → List String
  | .map es => es.map Prod.fst
  | _ => []

/-- The NER/SRL YAML configuration document, transcribed node for node from
the configuration file. -/
def forteConfig : Yaml := .map [
  ("NER", .map [
    ("config_data", .map [
      ("max_char_length", .int 45),
      ("num_char_pad", .int 2)]),
    ("config_model", .map [
      ("resource_dir", .str "resources/ner"),
      ("output_hidden_size", .int 128),
      ("dropout_rate", .float (3/10)),
      ("char_emb", .map [
        ("dim", .int 30),
        ("initializer", .map [
          ("type", .str "normal_")])]),
      ("char_cnn_conv", .map [
        ("in_channels", .int 30),
        ("out_channels", .int 30),
        ("kernel_size", .int 3),
        ("padding", .int 2)]),
      ("bilstm_sentence_encoder", .map [
        ("rnn_cell_fw", .map [
          ("input_size", .int 130),
          ("type", .str "LSTMCell"),
          ("kwargs", .map [
            ("num_units", .int 128)])]),
        ("rnn_cell_share_config", .bool true),
        ("output_layer_fw", .map [
          ("num_layers", .int 0)]),
        ("output_layer_share_config", .bool true)]),
      ("initializer", .map [
        ("type", .str "xavier_uniform_")]),
      ("random_seed", .int 1234)])]),
  ("SRL", .map [
    ("storage_path", .str "resources/srl"),
    ("batcher", .map [
      ("batch_size", .int 1)])])]

/-- A numeric leaf (integer or float) is a positive integer; non-numeric
leaves pass vacuously. -/
def numericLeafIsPosInt : Yaml → Bool
  | .int n => decide (0 < n)
  | .float _ => false
  | _ => true

/-- A leaf is an integer or string scalar (a mapping never reaches a leaf
position, but is admitted as the stated property admits nested mappings). -/
def leafIsIntOrStr : Yaml → Bool
  | .int _ => true
  | .str _ => true
  | .map _ => true
  | _ => false

/-- One shell command from the invocation sequence: interpreter, script path
and arguments. -/
structure Command where
  interpreter : String
  script : String
  args : List String

/-- The command sequence shown for the da_rl example, transcribed in order:
download the IMDB dataset, format it, prepare the dataset, then run the main
script with the train/eval/test flags. -/
def shellCommands : List Command := [
  ⟨"python", "download_imdb.py", []⟩,
  ⟨"python", "utils/imdb_format.py",
    ["--raw_data_dir=data/IMDB_raw/aclImdb",
     "--train_id_path=data/IMDB_raw/train_id_list.txt",
     "--output_dir=data/IMDB"]⟩,
  ⟨"python", "prepare_dataset.py", []⟩,
  ⟨"python", "main.py", ["--do-train", "--do-eval", "--do-test"]⟩]

/-- Does the command carry all three of the train, eval and test flags? -/
def hasTrainEvalTestFlags (c : Command) : Bool :=
  c.args.contains "--do-train" && c.args.contains "--do-eval"
    && c.args.contains "--do-test"

/-- The processor_config dictionary from the notebook code cell, transcribed
entry for entry (Python string and dict values embedded in the same tree
type as the YAML document). -/
def processor_config : Yaml := .map [
  ("augment_entry", .str "ft.onto.base_ontology.Token"),
  ("other_entry_policy", .map [
    ("kwargs", .map [
      ("ft.onto.base_ontology.Document", .str "auto_align"),
      ("ft.onto.base_ontology.Sentence", .str "auto_align")])]),
  ("type", .str "data_augmentation_op"),
  ("data_aug_op",
    .str "forte.processors.data_augment.algorithms.back_translation_op.BackTranslationOp"),
  ("data_aug_op_config", .map [
    ("kwargs", .map [
      ("model_to",
        .str "forte.processors.data_augment.algorithms.machine_translator.MarianMachineTranslator"),
      ("model_back",
        .str "forte.processors.data_augment.algorithms.machine_translator.MarianMachineTranslator"),
      ("src_language", .str "en"),
      ("tgt_language", .str "fr"),
      ("device", .str "cpu")])])]

/-- A Python statement, at the granularity the notebook code cell needs:
imports, assignments, bare expression statements, and class or function
definitions. -/
inductive PyStmt where
  | importFrom (module name : String)
  | assign (target expr : String)
  | exprStmt (expr : String)
  | classDef (name : String)
  | funcDef (name : String)

/-- The statements of the only code cell in the tutorial notebook, in order.
The dict literal assigned to processor_config is embedded above under that
name. -/
def notebookStatements : List PyStmt := [
  .importFrom "forte.processors.base.data_augment_processor"
    "ReplacementDataAugmentProcessor",
  .importFrom "forte.pipeline" "Pipeline",
  .assign "nlp" "Pipeline[MultiPack]()",
  .assign "processor_config" "the dict literal embedded above as processor_config",
  .assign "processor" "ReplacementDataAugmentProcessor()",
  .exprStmt "nlp.add(component=processor, configs=processor_config)"]

/-- The names a list of Python statements defines via class or def. -/
def definedNames : List PyStmt → List String
  | [] => []
  | .classDef n :: rest => n :: definedNames rest
  | .funcDef n :: rest => n :: definedNames rest
  | _ :: rest => definedNames rest

/-- The four text replacement ops the notebook markdown enumerates. -/
def textReplacementOps : List String :=
  ["DictionaryReplacementOp", "BackTranslationOp",
   "DistributionReplacementOp", "EmbeddingSimilarityOp"]

/-- The module the notebook says every replacement op should be under. -/
def requiredOpModule : String := "forte.processors.data_augment.algorithms"

/-- Split a character list at the dot character, accumulating the current
component in reverse. -/
def splitDotsChars : List Char → List Char → List (List Char)
  | [], acc => [acc.reverse]
  | c :: cs, acc =>
      if c == '.' then acc.reverse :: splitDotsChars cs []
      else splitDotsChars cs (c :: acc)

/-- The dotted components of a qualified Python name. -/
def dotComponents (q : String) : List String :=
  (splitDotsChars q.toList []).map String.mk

/-- The last dotted component of a fully qualified name (the class name). -/
def lastComponent (q : String) : String := (dotComponents q).getLastD ""

/-- The module part of a fully qualified class name: all dotted components
but the last. -/
def moduleOf (q : String) : List String := (dotComponents q).dropLast

/-- Does the module part of the qualified name start with the components of
requiredOpModule? -/
def underRequiredModule (q : String) : Bool :=
  (moduleOf q).take 4 == dotComponents requiredOpModule

/-- Modelled from the spec: the configuration document has no lifecycle
beyond being read once at process start by an external framework (the
reading routine is not part of this repository). The read returns the
constant document and touches no other state. -/
def readConfig {σ : Type} (s : σ) : Yaml × σ := (forteConfig, s)

/-- Claim C1, counterexample: the claim that every numeric leaf of the YAML
document is a positive integer fails, concretely at the leaf
NER.config_model.bilstm_sentence_encoder.output_layer_fw.num_layers, whose
value is the integer 0 (and the whole-document check is false). -/
theorem C1_counterexample :
    forteConfig.getPath ["NER", "config_model", "bilstm_sentence_encoder",
      "output_layer_fw", "num_layers"] = some (.int 0) ∧
    forteConfig.allLeaves numericLeafIsPosInt = false :=
  ⟨rfl, rfl⟩

/-- Claim C1, amended: every numeric leaf of the YAML document is a positive
integer except exactly two leaves, in document order the float 0.3 (the
dropout_rate field) and the integer 0 (the output_layer_fw.num_layers
field). -/
theorem C1_numeric_leaves :
    forteConfig.leavesWhere (fun v => !(numericLeafIsPosInt v))
      = [.float (3/10), .int 0] ∧
    forteConfig.getPath ["NER", "config_model", "dropout_rate"]
      = some (.float (3/10)) :=
  ⟨rfl, rfl⟩

/-- Claim C2, counterexample: the claim that every leaf of the YAML document
is an integer, a string, or a nested mapping fails, concretely at the leaf
NER.config_model.dropout_rate, a float. -/
theorem C2_counterexample :
    forteConfig.getPath ["NER", "config_model", "dropout_rate"]
      = some (.float (3/10)) ∧
    leafIsIntOrStr (.float (3/10)) = false ∧
    forteConfig.allLeaves leafIsIntOrStr = false :=
  ⟨rfl, rfl, rfl⟩

/-- Claim C2, amended: every leaf of the YAML document is an integer, a
string, or a nested mapping, except exactly three leaves, in document order
the float 0.3 (dropout_rate) and the boolean true twice
(rnn_cell_share_config and output_layer_share_config, whose YAML scalar is
yes). -/
theorem C2_leaf_types :
    forteConfig.leavesWhere (fun v => !(leafIsIntOrStr v))
      = [.float (3/10), .bool true, .bool true] :=
  rfl

/-- Claim C3: the YAML document has leaves at
NER.config_data.max_char_length (45), NER.config_model.char_emb.dim (30)
and NER.config_model.bilstm_sentence_encoder.rnn_cell_fw.kwargs.num_units
(128), and carries file-system resource paths as string values at
NER.config_model.resource_dir and SRL.storage_path. -/
theorem C3_key_paths_present :
    forteConfig.getPath ["NER", "config_data", "max_char_length"]
      = some (.int 45) ∧
    forteConfig.getPath ["NER", "config_model", "char_emb", "dim"]
      = some (.int 30) ∧
    forteConfig.getPath ["NER", "config_model", "bilstm_sentence_encoder",
      "rnn_cell_fw", "kwargs", "num_units"] = some (.int 128) ∧
    forteConfig.getPath ["NER", "config_model", "resource_dir"]
      = some (.str "resources/ner") ∧
    forteConfig.getPath ["SRL", "storage_path"]
      = some (.str "resources/srl") :=
  ⟨rfl, rfl, rfl, rfl, rfl⟩

/-- Claim C4: the invocation sequence is exactly four commands, in order the
download script, the format script, the prepare script and the main script,
and the main script is the only one invoked with the flags
do-train, do-eval and do-test. -/
theorem C4_command_sequence :
    shellCommands.map (fun c => c.script)
      = ["download_imdb.py", "utils/imdb_format.py", "prepare_dataset.py",
         "main.py"] ∧
    (shellCommands.filter hasTrainEvalTestFlags).map (fun c => c.script)
      = ["main.py"] :=
  ⟨rfl, rfl⟩

/-- Claim C5: the top-level keys of the notebook processor_config dictionary
are exactly augment_entry, other_entry_policy, type, data_aug_op and
data_aug_op_config, in that order. -/
theorem C5_processor_config_keys :
    processor_config.topKeys
      = ["augment_entry", "other_entry_policy", "type", "data_aug_op",
         "data_aug_op_config"] :=
  rfl

/-- Claim C6: the repository material originates no state-changing
operation. The modelled read of the configuration returns the constant
document and leaves any ambient state unchanged, and the notebook code
defines no class or function of its own (it only configures and calls the
external framework). -/
theorem C6_read_only (σ : Type) (s : σ) :
    readConfig s = (forteConfig, s) ∧ definedNames notebookStatements = [] :=
  ⟨rfl, rfl⟩

/-- Claim C7: the notebook markdown names four text replacement ops,
BackTranslationOp among them; BackTranslationOp is the class configured as
data_aug_op in processor_config; and the shown source defines none of the
four (the only code cell contains imports, assignments and one method
call). -/
theorem C7_ops_named_not_defined :
    textReplacementOps.length = 4 ∧
    textReplacementOps.contains "BackTranslationOp" = true ∧
    processor_config.getPath ["data_aug_op"] = some (.str
      "forte.processors.data_augment.algorithms.back_translation_op.BackTranslationOp") ∧
    lastComponent
      "forte.processors.data_augment.algorithms.back_translation_op.BackTranslationOp"
      = "BackTranslationOp" ∧
    definedNames notebookStatements = [] ∧
    textReplacementOps.all
      (fun op => !((definedNames notebookStatements).contains op)) = true :=
  ⟨rfl, rfl, rfl, by decide, rfl, rfl⟩

/-- Claim C8: the character-CNN input width equals the character-embedding
dimension: NER.config_model.char_cnn_conv.in_channels and
NER.config_model.char_emb.dim are both the integer 30. -/
theorem C8_char_dims_consistent :
    forteConfig.getPath ["NER", "config_model", "char_cnn_conv",
      "in_channels"] = some (.int 30) ∧
    forteConfig.getPath ["NER", "config_model", "char_emb", "dim"]
      = some (.int 30) ∧
    forteConfig.getPath ["NER", "config_model", "char_cnn_conv",
      "in_channels"]
      = forteConfig.getPath ["NER", "config_model", "char_emb", "dim"] :=
  ⟨rfl, rfl, rfl⟩

/-- Claim C9: rnn_cell_fw.input_size is 130 and char_emb.dim is 30, so
under the documents inline constraint (input size is the sum of the
character and word embedding dimensions) the unstated word-embedding
dimension is exactly 100; and no word_emb key occurs anywhere in the
document. -/
theorem C9_word_emb_dim_pinned :
    forteConfig.getPath ["NER", "config_model", "bilstm_sentence_encoder",
      "rnn_cell_fw", "input_size"] = some (.int 130) ∧
    forteConfig.getPath ["NER", "config_model", "char_emb", "dim"]
      = some (.int 30) ∧
    (130 : Int) = 30 + 100 ∧
    forteConfig.hasKey "word_emb" = false :=
  ⟨rfl, rfl, by decide, rfl⟩

/-- Claim C10: the data_aug_op value in processor_config is a fully
qualified name whose module part starts with the four components of
forte.processors.data_augment.algorithms, the placement the notebook
requires of every replacement op. -/
theorem C10_data_aug_op_placement :
    processor_config.getPath ["data_aug_op"] = some (.str
      "forte.processors.data_augment.algorithms.back_translation_op.BackTranslationOp") ∧
    underRequiredModule
      "forte.processors.data_augment.algorithms.back_translation_op.BackTranslationOp"
      = true :=
  ⟨rfl, by decide⟩
